import Mathlib

/-!
Shallow embedding of the `ai_optimizer` brand-monitoring pipeline
(`src/nodes.py`, `src/flow.py`, `src/main.py`, `src/app.py`,
`src/utils/text_analysis.py`, `src/utils/ai_platforms.py`) together with
proofs about the behaviour its specification describes.

Conventions of the embedding:
- Python strings are Lean `String`s; where character-level scanning is
  needed they are viewed as `List Char`.
- Python floats are embedded as exact rationals (`ℚ`); wall-clock
  timestamps (`time.time()`) carry no information relevant to any claim
  and are omitted from the records.
- External effects (the OpenAI / Gemini calls made through `call_llm`
  and `google.generativeai`) are passed in as oracle parameters of type
  `String → Except String String`: `Except.ok` models a normal return,
  `Except.error` models a raised exception, mirroring the `try/except`
  structure of the Python code.
- Python dicts with a fixed key set become structures; keys that may be
  absent become `Option` fields.
-/

namespace AIOptimizer

/-! ### Character/string utilities mirroring Python built-ins -/

/-- Python's `str.lower()`, viewed as a character list (ASCII-faithful,
which covers every string the program lowers). -/
def lowerChars (s : String) : List Char := s.toList.map Char.toLower

/-- Python's substring test `needle in hay` on character lists.
`"" in s` is `True` in Python, matched by `isPrefixOf` of `[]`. -/
def listContainsSub (needle : List Char) : List Char → Bool
  | [] => needle.isEmpty
  | c :: cs => needle.isPrefixOf (c :: cs) || listContainsSub needle cs

/-- Python's `str.split()` word count: number of maximal runs of
non-whitespace characters (`len(text.split())`). -/
def countWordsAux : List Char → Bool → Nat
  | [], _ => 0
  | c :: cs, inWord =>
    if c.isWhitespace then countWordsAux cs false
    else (if inWord then 0 else 1) + countWordsAux cs true

/-- Embedding of `len(text.split())` for a string viewed as a char list. -/
def wordCount (s : List Char) : Nat := countWordsAux s false

/-! ### Regex mention extraction (`utils/text_analysis.py`, lines 10-23)

The Python code runs `re.finditer(r'.{0,50}' + re.escape(kw) + r'.{0,50}',
text_lower)` for each keyword whose lowered form is a substring of the
lowered text.  We model the matcher exactly: `.` does not match a newline,
`{0,50}` is greedy, matches are non-overlapping and scanned left to right
(leftmost match wins, and within it the greedy prefix picks the furthest
keyword occurrence inside the 50-character, newline-free window). -/

/-- Is `k` a prefix of `t` starting at position `p`? (a keyword occurrence). -/
def occAt (k t : List Char) (p : Nat) : Bool := k.isPrefixOf (t.drop p)

/-- First occurrence of `k` in `t` at position `≥ pos`, if any. -/
def firstOccFrom (k t : List Char) (pos : Nat) : Option Nat :=
  ((List.range (t.length + 1)).filter (fun p => pos ≤ p && occAt k t p)).head?

/-- Holds (as `true`) when the slice `t[a..b)` contains no newline (`.` cannot match
newlines in Python regexes). -/
def noNewlineBetween (t : List Char) (a b : Nat) : Bool :=
  ((t.drop a).take (b - a)).all (· ≠ '\n')

/-- Least window start `s ≤ p` such that `t[s..p)` is newline-free:
one past the last newline before `p` (or `0`). -/
def newlineBound (t : List Char) (p : Nat) : Nat :=
  p - (((t.take p).reverse.takeWhile (· ≠ '\n')).length)

/-- The greedy choice of keyword occurrence for a match starting at `s`:
the largest occurrence position in the window `[s, s+50]` reachable
without crossing a newline.  `p₁` (the leftmost occurrence) is the
fallback, making the function total. -/
def greedyOcc (k t : List Char) (s p₁ : Nat) : Nat :=
  (((List.range (t.length + 1)).filter
      (fun p => s ≤ p && p ≤ s + 50 && occAt k t p && noNewlineBetween t s p)).foldl
    max p₁)

/-- Number of characters the greedy suffix `.{0,50}` consumes after the
keyword ends at `e₀`: up to 50 characters, stopping at a newline or the
end of the text. -/
def suffixLen (t : List Char) (e₀ : Nat) : Nat :=
  min 50 ((t.drop e₀).takeWhile (· ≠ '\n')).length

/-- One step plus continuation of `re.finditer`: returns the list of
`(start, end)` spans of the non-overlapping matches found scanning from
`pos`.  `fuel` bounds the recursion (each step advances `pos`). -/
def findMatches (k t : List Char) : Nat → Nat → List (Nat × Nat)
  | 0, _ => []
  | fuel + 1, pos =>
    match firstOccFrom k t pos with
    | none => []
    | some p₁ =>
      let s := max pos (max (p₁ - 50) (newlineBound t p₁))
      let p' := greedyOcc k t s p₁
      let e := p' + k.length + suffixLen t (p' + k.length)
      (s, e) :: findMatches k t fuel (max e (pos + 1))

/-- One entry of the `mentions` list built by `analyze_brand_mentions`:
`{"keyword": ..., "context": match.group(), "position": match.start()}`. -/
structure Mention where
  keyword : String
  context : String
  position : Nat
deriving DecidableEq, Repr

/-- The mentions contributed by one keyword
(`utils/text_analysis.py`, lines 12-23): if the lowered keyword occurs in
the lowered text, every `finditer` match produces a mention. -/
def mentionsFor (keyword : String) (textLower : List Char) : List Mention :=
  let kl := lowerChars keyword
  if listContainsSub kl textLower then
    (findMatches kl textLower (textLower.length + 2) 0).map (fun se =>
      { keyword := keyword
        context := String.mk ((textLower.drop se.1).take (se.2 - se.1))
        position := se.1 })
  else []

/-! ### Sentiment and themes (`utils/text_analysis.py`, lines 41-91) -/

def positive_words : List String :=
  ["good", "great", "excellent", "amazing", "best", "love", "fantastic",
   "wonderful", "outstanding", "superior", "innovative", "reliable"]

def negative_words : List String :=
  ["bad", "terrible", "awful", "worst", "hate", "horrible", "poor",
   "disappointing", "unreliable", "expensive", "overpriced", "problem"]

/-- Embedding of `calculate_sentiment(text, mentions)`: returns `0.0` when `mentions`
is empty or the text has no words; otherwise
`(positive_count - negative_count) / max(total_words / 10, 1)` clamped to
`[-1, 1]`.  Each lexicon word counts once if it occurs as a substring. -/
def calculate_sentiment (text : String) (mentions : List Mention) : ℚ :=
  if mentions.isEmpty then 0
  else
    let textLower := lowerChars text
    let positiveCount := (positive_words.filter
      (fun w => listContainsSub w.toList textLower)).length
    let negativeCount := (negative_words.filter
      (fun w => listContainsSub w.toList textLower)).length
    let totalWords := wordCount text.toList
    if totalWords = 0 then 0
    else
      let sentiment : ℚ :=
        ((positiveCount : ℚ) - (negativeCount : ℚ)) / max ((totalWords : ℚ) / 10) 1
      max (-1) (min 1 sentiment)

/-- Embedding of `get_sentiment_label(score)`: `"positive"` above `0.2`, `"negative"`
below `-0.2`, `"neutral"` otherwise. -/
def get_sentiment_label (score : ℚ) : String :=
  if score > 2 / 10 then "positive"
  else if score < -(2 / 10) then "negative"
  else "neutral"

def theme_keywords : List (String × List String) :=
  [("product_quality", ["quality", "performance", "reliability", "durable"]),
   ("customer_service", ["service", "support", "help", "assistance"]),
   ("pricing", ["price", "cost", "expensive", "cheap", "value", "money"]),
   ("innovation", ["innovative", "technology", "advanced", "cutting-edge"]),
   ("competition", ["competitor", "alternative", "versus", "compared to"])]

/-- Embedding of `extract_themes(text)`: the theme tags whose keyword set has a
substring hit in the lowered text, in dictionary (insertion) order. -/
def extract_themes (text : String) : List String :=
  let textLower := lowerChars text
  (theme_keywords.filter
    (fun tk => tk.2.any (fun kw => listContainsSub kw.toList textLower))).map (·.1)

/-- Result dict of `analyze_brand_mentions` (`utils/text_analysis.py`,
lines 31-39). -/
structure MentionAnalysisBase where
  mentions_found : Nat
  mentions : List Mention
  sentiment_score : ℚ
  sentiment_label : String
  themes : List String
  word_count : Nat
  contains_brand : Bool
deriving DecidableEq, Repr

/-- Embedding of `analyze_brand_mentions(text, brand_keywords)`. -/
def analyze_brand_mentions (text : String) (brand_keywords : List String) :
    MentionAnalysisBase :=
  let textLower := lowerChars text
  let mentions := brand_keywords.flatMap (fun kw => mentionsFor kw textLower)
  let score := calculate_sentiment text mentions
  { mentions_found := mentions.length
    mentions := mentions
    sentiment_score := score
    sentiment_label := get_sentiment_label score
    themes := extract_themes text
    word_count := wordCount text.toList
    contains_brand := decide (0 < mentions.length) }

/-! ### Response records (`src/nodes.py`)

A `ProviderResponse` dict as produced by `utils/ai_platforms.py` and
enriched by `MultiPlatformQueryNode.exec` / `ResponseAnalysisNode`.
The Python dict gains keys as it moves through the pipeline; keys that
may be absent are `Option` fields or carry the `.get` default used at
every read site.  The `timestamp` key (wall clock) is omitted. -/

/-- The analysis dict attached to a successful response by
`ResponseAnalysisNode.exec` (`src/nodes.py`, lines 255-264): the
`analyze_brand_mentions` result plus the category metadata. -/
structure Analysis extends MentionAnalysisBase where
  query_category : String
  brand_mentioned_in_query : Bool
  organic_mention : Bool
deriving DecidableEq, Repr

structure AIResponse where
  platform : String
  query : String
  response : String
  status : String
  error : Option String := none
  category : String := "unknown"
  brand_mentioned_in_query : Bool := false
  brand_keywords : List String := []
  analysis : Option Analysis := none
deriving DecidableEq, Repr

/-! ### AI platform wrappers (`utils/ai_platforms.py`, lines 10-84)

`call_llm` and the Gemini API are external; they are modelled as oracle
functions returning `Except.ok` on success and `Except.error` when the
Python call would raise.  The wrappers below reproduce the `try/except`
structure: every exception path is caught and converted into a record. -/

/-- Embedding of `query_chatgpt(query)`: wraps `call_llm` and never raises. -/
def query_chatgpt (callLLM : String → Except String String) (query : String) :
    AIResponse :=
  match callLLM ("Please answer this question as you would for any user: " ++ query) with
  | Except.ok response =>
    { platform := "chatgpt", query := query, response := response, status := "success" }
  | Except.error e =>
    { platform := "chatgpt", query := query, response := "", status := "error"
      error := some e }

/-- Embedding of `query_gemini(query)`: tries the Gemini API (`geminiApi`, which also
covers the missing-API-key raise), falls back to an OpenAI simulation via
`call_llm`, and reports `"error"` only when both fail. -/
def query_gemini (geminiApi callLLM : String → Except String String)
    (query : String) : AIResponse :=
  match geminiApi query with
  | Except.ok text =>
    { platform := "gemini", query := query, response := text, status := "success" }
  | Except.error _ =>
    match callLLM ("[Simulating Gemini response] " ++ query) with
    | Except.ok response =>
      { platform := "gemini", query := query, response := "[Simulated] " ++ response
        status := "fallback" }
    | Except.error e2 =>
      { platform := "gemini", query := query, response := "", status := "error"
        error := some e2 }

/-! ### MultiPlatformQueryNode (`src/nodes.py`, lines 158-224) -/

/-- An element of `shared["queries"]["all_queries"]`
(built by `QueryGeneratorNode.post`). -/
structure QueryItem where
  query : String
  category : String
  brand_mentioned : Bool
deriving DecidableEq, Repr

/-- The fixed provider list of `MultiPlatformQueryNode.prep`. -/
def platforms : List String := ["chatgpt", "gemini"]

/-- An element of the batch produced by `MultiPlatformQueryNode.prep`. -/
structure QueryPlatformPair where
  query : String
  category : String
  brand_mentioned : Bool
  platform : String
deriving DecidableEq, Repr

/-- Embedding of `MultiPlatformQueryNode.prep`: the cross product of `all_queries`
with the platform list, queries outermost. -/
def multiPlatformPrep (all_queries : List QueryItem) : List QueryPlatformPair :=
  all_queries.flatMap (fun q =>
    platforms.map (fun p =>
      { query := q.query, category := q.category
        brand_mentioned := q.brand_mentioned, platform := p }))

/-- Embedding of `MultiPlatformQueryNode.exec`: dispatch one pair to its platform and
attach the category metadata to the result. -/
def multiPlatformExec (geminiApi callLLM : String → Except String String)
    (pair : QueryPlatformPair) : AIResponse :=
  let result :=
    if pair.platform = "chatgpt" then query_chatgpt callLLM pair.query
    else if pair.platform = "gemini" then query_gemini geminiApi callLLM pair.query
    else
      { platform := pair.platform, query := pair.query, response := ""
        status := "error", error := some ("Unknown platform: " ++ pair.platform) }
  { result with category := pair.category
                brand_mentioned_in_query := pair.brand_mentioned }

/-! ### ResponseAnalysisNode (`src/nodes.py`, lines 226-335) -/

/-- Embedding of `ResponseAnalysisNode.exec`: pass non-success responses through
unchanged; otherwise attach the `analyze_brand_mentions` result enriched
with the category metadata, and set `organic_mention` to
`not brand_mentioned_in_query` exactly when `mentions_found > 0`. -/
def responseAnalysisExec (response_data : AIResponse) : AIResponse :=
  if response_data.status ≠ "success" then response_data
  else
    let base := analyze_brand_mentions response_data.response response_data.brand_keywords
    let organic :=
      if 0 < base.mentions_found then !response_data.brand_mentioned_in_query
      else false
    { response_data with
        analysis := some
          { toMentionAnalysisBase := base
            query_category := response_data.category
            brand_mentioned_in_query := response_data.brand_mentioned_in_query
            organic_mention := organic } }

/-- One `category_metrics[category]` entry. -/
structure CategoryMetrics where
  total : Nat
  mentions : Nat
  organic_mentions : Nat
deriving DecidableEq, Repr

/-- The fixed four-key `category_metrics` dict of
`ResponseAnalysisNode.post`, always present even when zero. -/
structure CategoryBreakdown where
  category_exploration : CategoryMetrics
  comparison_research : CategoryMetrics
  problem_solving : CategoryMetrics
  direct_brand : CategoryMetrics
deriving DecidableEq, Repr

/-- The key set of `category_metrics` (the `if category in
category_metrics` membership test). -/
def categoryNames : List String :=
  ["category_exploration", "comparison_research", "problem_solving", "direct_brand"]

/-- Update the entry of one category key, leaving the dict unchanged for
an unrecognized key. -/
def updateCategory (cb : CategoryBreakdown) (cat : String)
    (f : CategoryMetrics → CategoryMetrics) : CategoryBreakdown :=
  if cat = "category_exploration" then
    { cb with category_exploration := f cb.category_exploration }
  else if cat = "comparison_research" then
    { cb with comparison_research := f cb.comparison_research }
  else if cat = "problem_solving" then
    { cb with problem_solving := f cb.problem_solving }
  else if cat = "direct_brand" then
    { cb with direct_brand := f cb.direct_brand }
  else cb

/-- The loop state of `ResponseAnalysisNode.post` (`src/nodes.py`,
lines 274-313): the per-platform partition being rebuilt, the category
metrics, the flat counters and the collected sentiment scores. -/
structure AnalysisFoldState where
  chatgpt : List AIResponse
  gemini : List AIResponse
  category_metrics : CategoryBreakdown
  total_mentions : Nat
  total_organic_mentions : Nat
  sentiment_scores : List ℚ
deriving DecidableEq

def zeroCategoryMetrics : CategoryMetrics := ⟨0, 0, 0⟩

def initialBreakdown : CategoryBreakdown :=
  ⟨zeroCategoryMetrics, zeroCategoryMetrics, zeroCategoryMetrics, zeroCategoryMetrics⟩

def initialAnalysisFoldState : AnalysisFoldState :=
  ⟨[], [], initialBreakdown, 0, 0, []⟩

/-- One iteration of the `for response in exec_res_list` loop of
`ResponseAnalysisNode.post`.  Everything happens inside the
`if platform in ai_responses` guard; the counters move only when an
analysis dict is present, the category is recognized, and (for the
mention counters) `mentions_found > 0` / `organic_mention` hold; a
nonzero sentiment score is appended regardless of category. -/
def analysisFoldStep (st : AnalysisFoldState) (r : AIResponse) : AnalysisFoldState :=
  if r.platform = "chatgpt" ∨ r.platform = "gemini" then
    let st1 :=
      if r.platform = "chatgpt" then { st with chatgpt := st.chatgpt ++ [r] }
      else { st with gemini := st.gemini ++ [r] }
    match r.analysis with
    | none => st1
    | some a =>
      let m := a.mentions_found
      let st2 :=
        if a.query_category ∈ categoryNames then
          let stT := { st1 with
            category_metrics :=
              updateCategory st1.category_metrics a.query_category
                (fun cm => { cm with total := cm.total + 1 }) }
          if 0 < m then
            let stM := { stT with
              category_metrics :=
                updateCategory stT.category_metrics a.query_category
                  (fun cm => { cm with mentions := cm.mentions + m })
              total_mentions := stT.total_mentions + m }
            if a.organic_mention then
              { stM with
                category_metrics :=
                  updateCategory stM.category_metrics a.query_category
                    (fun cm => { cm with organic_mentions := cm.organic_mentions + m })
                total_organic_mentions := stM.total_organic_mentions + m }
            else stM
          else stT
        else st1
      if a.sentiment_score ≠ 0 then
        { st2 with sentiment_scores := st2.sentiment_scores ++ [a.sentiment_score] }
      else st2
  else st

/-- The `shared["analysis"]` summary written by `ResponseAnalysisNode.post`
(minus the `analyzed_at` wall-clock timestamp). -/
structure RunAnalysis where
  total_mentions : Nat
  total_organic_mentions : Nat
  organic_mention_rate : ℚ
  total_responses : Nat
  avg_sentiment : ℚ
  category_breakdown : CategoryBreakdown
deriving DecidableEq

/-- Embedding of `ResponseAnalysisNode.post` (`src/nodes.py`, lines 271-328): fold the
batch results, then assemble the summary.  `total_responses` is
`len(exec_res_list)`, the rate divides `total_organic_mentions` by it when
positive, and `avg_sentiment` averages the collected nonzero scores. -/
def responseAnalysisPost (exec_res_list : List AIResponse) : RunAnalysis :=
  let st := exec_res_list.foldl analysisFoldStep initialAnalysisFoldState
  let total_responses := exec_res_list.length
  { total_mentions := st.total_mentions
    total_organic_mentions := st.total_organic_mentions
    organic_mention_rate :=
      if 0 < total_responses then
        (st.total_organic_mentions : ℚ) / (total_responses : ℚ)
      else 0
    total_responses := total_responses
    avg_sentiment :=
      if st.sentiment_scores.isEmpty then 0
      else st.sentiment_scores.sum / (st.sentiment_scores.length : ℚ)
    category_breakdown := st.category_metrics }

/-- The number of responses with `status == "success"` (what the spec
says `total_responses` should be). -/
def successCount (rs : List AIResponse) : Nat :=
  (rs.filter (fun r => r.status == "success")).length

/-! ### OptimizationAgentNode (`src/nodes.py`, lines 337-486) -/

/-- The `assessment` sub-dict of the recommendations record.  Parsed YAML
may omit any key, hence the `Option` fields. -/
structure AssessmentRec where
  overall_score : Option Int := none
  status : Option String := none
  summary : Option String := none
deriving DecidableEq, Repr

structure RecommendationItem where
  priority : String
  action : String
  rationale : String
deriving DecidableEq, Repr

structure ContentStrategyItem where
  ctype : String
  topic : String
  goal : String
deriving DecidableEq, Repr

structure RisksOpportunities where
  risks : List String
  opportunities : List String
deriving DecidableEq, Repr

/-- The recommendations record stored in `shared["recommendations"]`. -/
structure Recommendations where
  assessment : Option AssessmentRec := none
  recommendations : List RecommendationItem := []
  content_strategy : List ContentStrategyItem := []
  risks_opportunities : Option RisksOpportunities := none
deriving DecidableEq, Repr

/-- The hardcoded fallback of `OptimizationAgentNode.exec`
(`src/nodes.py`, lines 444-468), returned when the structured output
fails to parse.  The `summary` f-string's `:.1%` float formatting is
replaced by `toString` of the exact rate; no claim inspects the summary
text. -/
def optimizationFallback (brand_name : String) (total_mentions : Nat)
    (total_organic_mentions : Nat) (organic_mention_rate : ℚ) : Recommendations :=
  { assessment := some
      { overall_score := some 5
        status := some
          (if total_organic_mentions < 3 then "needs_improvement" else "good")
        summary := some ("Found " ++ toString total_mentions ++ " mentions with "
          ++ toString total_organic_mentions ++ " organic ("
          ++ toString organic_mention_rate ++ ")") }
    recommendations :=
      [{ priority := "high"
         action := "Create more authoritative content"
         rationale := "Low organic mention rate suggests limited AI visibility" }]
    content_strategy :=
      [{ ctype := "FAQ"
         topic := "Common questions about " ++ brand_name
         goal := "Improve AI response accuracy" }]
    risks_opportunities := some
      { risks := ["Limited AI visibility"]
        opportunities := ["Untapped AI search traffic"] } }

/-- Embedding of `OptimizationAgentNode.exec`: attempt the structured
text-generation output (`parsed`, `none` when extraction or
`yaml.safe_load` failed); on failure return the deterministic fallback
instead of raising, so the run continues. -/
def optimizationAgentExec (parsed : Option Recommendations)
    (brand_name : String) (total_mentions total_organic_mentions : Nat)
    (organic_mention_rate : ℚ) : Recommendations :=
  match parsed with
  | some recommendations => recommendations
  | none =>
    optimizationFallback brand_name total_mentions total_organic_mentions
      organic_mention_rate

/-- Embedding of `OptimizationAgentNode.post` (`src/nodes.py`, lines 470-486): read
the assessment status (defaulting to `"needs_improvement"` when the key
is missing) and return the routing label. -/
def optimizationAgentPost (exec_res : Recommendations) : String :=
  let status := ((exec_res.assessment.getD {}).status).getD "needs_improvement"
  if status = "poor" ∨ status = "needs_improvement" then "needs_attention"
  else if status = "excellent" then "performing_well"
  else "default"

/-! ### Pipeline graph (`src/flow.py`, lines 12-35)

`create_brand_monitoring_flow` wires the six nodes: `>>` installs the
`"default"` edge and `- "label" >>` a labeled edge.  The edge table below
is that wiring, keyed by node and action label. -/

def brandFlowEdge : String → String → Option String
  | "query_generator", "default" => some "platform_querier"
  | "platform_querier", "default" => some "response_analyzer"
  | "response_analyzer", "default" => some "optimization_agent"
  | "optimization_agent", "needs_attention" => some "report_generator"
  | "optimization_agent", "performing_well" => some "report_generator"
  | "optimization_agent", "default" => some "report_generator"
  | "report_generator", "default" => some "database_storage"
  | _, _ => none

/-! ### Brand configuration keyword lists (`src/main.py` and `src/app.py`)

Both entry points build `keywords` the same way: start from
`[brand_name]` and append each caller keyword `k` with
`k.lower() != brand_name.lower() and k not in keyword_list`.  Note the
membership test is exact (case-sensitive). -/

/-- Python's `str.strip()`: drop whitespace from both ends. -/
def stripStr (s : String) : String :=
  String.mk (((s.toList.dropWhile Char.isWhitespace).reverse.dropWhile
    Char.isWhitespace).reverse)

/-- Python's `str.split(c)` for a single-character separator. -/
def splitOnChar (c : Char) : List Char → List (List Char)
  | [] => [[]]
  | x :: xs =>
    match splitOnChar c xs with
    | [] => [[]]
    | r :: rs => if x = c then [] :: r :: rs else (x :: r) :: rs

/-- Embedding of `keywords.split('\n')` on a string. -/
def splitLinesStr (s : String) : List String :=
  (splitOnChar '\x0a' s.toList).map String.mk

/-- The shared append step of both keyword loops:
`if keyword.lower() != brand_name.lower() and keyword not in keyword_list`.
The membership test is exact (case-sensitive), the brand comparison is
lowered. -/
def addKeyword (brand_name : String) (acc : List String) (k : String) :
    List String :=
  if lowerChars k ≠ lowerChars brand_name ∧ k ∉ acc then acc ++ [k] else acc

/-- Embedding of the keyword handling in `app.py` `analyze` (lines 102-107): strip the textarea value; if it
is nonempty, split on newlines, strip each line, drop blanks, then run
the append loop from `[brand_name]`. -/
def analyzeKeywordList (brand_name : String) (keywords_text : String) :
    List String :=
  if stripStr keywords_text = "" then [brand_name]
  else
    (((splitLinesStr (stripStr keywords_text)).map stripStr).filter
      (· ≠ "")).foldl (addKeyword brand_name) [brand_name]

/-- The interactive loop of `main.py` `get_brand_config` (lines 45-51):
consume entered lines until the first blank one, appending through
`addKeyword`. -/
def getBrandConfigKeywordsAux (brand_name : String) :
    List String → List String → List String
  | acc, [] => acc
  | acc, e :: es =>
    if stripStr e = "" then acc
    else getBrandConfigKeywordsAux brand_name (addKeyword brand_name acc (stripStr e)) es

/-- Embedding of `main.py` `get_brand_config`: the keyword list built from the entered
lines, starting from `[brand_name]`. -/
def getBrandConfigKeywords (brand_name : String) (entries : List String) :
    List String :=
  getBrandConfigKeywordsAux brand_name [brand_name] entries

/-- The shape the (amended) spec asserts for every built keyword list:
the brand name comes first, there are no exact duplicates, and no later
keyword is a case-variant of the brand name. -/
def KeywordListOK (name : String) (l : List String) : Prop :=
  ∃ rest, l = name :: rest ∧ l.Nodup ∧
    ∀ k ∈ rest, lowerChars k ≠ lowerChars name

/-! ### Spec-side definitions (for refinement comparisons)

These two follow the words of the specification (§4.5): they are the
sentiment formula and label the spec asserts the code computes, to be
compared against `calculate_sentiment` / `get_sentiment_label`. -/

/-- The sentiment score as the spec states it: positive minus negative
lexicon hits, normalized by `max(wordCount/10, 1)`, clamped to `[-1,1]` —
with no special case for an empty mention list. -/
def specSentimentFormula (text : String) : ℚ :=
  let textLower := lowerChars text
  let positiveCount := (positive_words.filter
    (fun w => listContainsSub w.toList textLower)).length
  let negativeCount := (negative_words.filter
    (fun w => listContainsSub w.toList textLower)).length
  let totalWords := wordCount text.toList
  max (-1) (min 1
    (((positiveCount : ℚ) - (negativeCount : ℚ)) / max ((totalWords : ℚ) / 10) 1))

/-- The sentiment label as the spec states it. -/
def specSentimentLabel (score : ℚ) : String :=
  if score > 2 / 10 then "positive"
  else if score < -(2 / 10) then "negative"
  else "neutral"

/-! ### Additive structure on the category metrics

Used to express the analysis fold as a sum of per-response
contributions, which is what makes its order-independence provable. -/

def cmAdd (a b : CategoryMetrics) : CategoryMetrics :=
  ⟨a.total + b.total, a.mentions + b.mentions, a.organic_mentions + b.organic_mentions⟩

instance : Zero CategoryMetrics := ⟨zeroCategoryMetrics⟩

instance : Add CategoryMetrics := ⟨cmAdd⟩

instance : AddCommMonoid CategoryMetrics where
  add_assoc a b c := by
    show cmAdd (cmAdd a b) c = cmAdd a (cmAdd b c)
    simp [cmAdd, Nat.add_assoc]
  zero_add a := by
    show cmAdd zeroCategoryMetrics a = a
    simp [cmAdd, zeroCategoryMetrics]
  add_zero a := by
    show cmAdd a zeroCategoryMetrics = a
    simp [cmAdd, zeroCategoryMetrics]
  add_comm a b := by
    show cmAdd a b = cmAdd b a
    simp [cmAdd, Nat.add_comm]
  nsmul := nsmulRec

def cbAdd (a b : CategoryBreakdown) : CategoryBreakdown :=
  ⟨a.category_exploration + b.category_exploration,
   a.comparison_research + b.comparison_research,
   a.problem_solving + b.problem_solving,
   a.direct_brand + b.direct_brand⟩

instance : Zero CategoryBreakdown := ⟨initialBreakdown⟩

instance : Add CategoryBreakdown := ⟨cbAdd⟩

instance : AddCommMonoid CategoryBreakdown where
  add_assoc a b c := by
    show cbAdd (cbAdd a b) c = cbAdd a (cbAdd b c)
    simp [cbAdd, add_assoc]
  zero_add a := by
    cases a
    show cbAdd initialBreakdown _ = _
    simp only [cbAdd, initialBreakdown, CategoryBreakdown.mk.injEq]
    exact ⟨zero_add _, zero_add _, zero_add _, zero_add _⟩
  add_zero a := by
    cases a
    show cbAdd _ initialBreakdown = _
    simp only [cbAdd, initialBreakdown, CategoryBreakdown.mk.injEq]
    exact ⟨add_zero _, add_zero _, add_zero _, add_zero _⟩
  add_comm a b := by
    show cbAdd a b = cbAdd b a
    simp [cbAdd, add_comm]
  nsmul := nsmulRec

/-- A breakdown that is `cm` at the key `cat` and zero elsewhere. -/
def cbDelta (cat : String) (cm : CategoryMetrics) : CategoryBreakdown :=
  updateCategory initialBreakdown cat (fun _ => cm)

/-! ### Per-response contributions of the analysis fold -/

/-- What one response adds to `total_mentions`. -/
def mContrib (r : AIResponse) : Nat :=
  if r.platform = "chatgpt" ∨ r.platform = "gemini" then
    match r.analysis with
    | some a => if a.query_category ∈ categoryNames then a.mentions_found else 0
    | none => 0
  else 0

/-- What one response adds to `total_organic_mentions`. -/
def oContrib (r : AIResponse) : Nat :=
  if r.platform = "chatgpt" ∨ r.platform = "gemini" then
    match r.analysis with
    | some a =>
      if a.query_category ∈ categoryNames ∧ 0 < a.mentions_found ∧
          a.organic_mention = true then
        a.mentions_found
      else 0
    | none => 0
  else 0

/-- The sentiment score one response appends, if any. -/
def sContrib (r : AIResponse) : Option ℚ :=
  if r.platform = "chatgpt" ∨ r.platform = "gemini" then
    match r.analysis with
    | some a => if a.sentiment_score ≠ 0 then some a.sentiment_score else none
    | none => none
  else none

/-- What one response adds to the category breakdown. -/
def cbContrib (r : AIResponse) : CategoryBreakdown :=
  if r.platform = "chatgpt" ∨ r.platform = "gemini" then
    match r.analysis with
    | some a =>
      if a.query_category ∈ categoryNames then
        cbDelta a.query_category
          ⟨1, a.mentions_found,
           if 0 < a.mentions_found ∧ a.organic_mention = true then
             a.mentions_found
           else 0⟩
      else 0
    | none => 0
  else 0

/-! ### Concrete sample records used by witnesses and counterexamples -/

/-- A failed provider response (both platforms can produce these). -/
def errResponse : AIResponse :=
  { platform := "chatgpt", query := "best roofing companies?", response := ""
    status := "error", error := some "API key not set"
    category := "category_exploration", brand_mentioned_in_query := false }

/-- An analyzed successful response whose text mentioned two configured
keywords once each (e.g. keywords `["acme", "roof"]` against the text
`"acme roof"`), so `mentions_found = 2`, organically (the query did not
name the brand). -/
def multiMentionResponse : AIResponse :=
  { platform := "chatgpt", query := "best roofing companies?"
    response := "acme roof", status := "success"
    category := "category_exploration", brand_mentioned_in_query := false
    brand_keywords := ["acme", "roof"]
    analysis := some
      { mentions_found := 2
        mentions :=
          [{ keyword := "acme", context := "acme roof", position := 0 },
           { keyword := "roof", context := "acme roof", position := 0 }]
        sentiment_score := 0
        sentiment_label := "neutral"
        themes := []
        word_count := 2
        contains_brand := true
        query_category := "category_exploration"
        brand_mentioned_in_query := false
        organic_mention := true } }

/-- A raw successful response as handed to `ResponseAnalysisNode.exec`. -/
def rawSuccessResponse : AIResponse :=
  { platform := "gemini", query := "who makes great cars?"
    response := "tesla is great", status := "success"
    category := "category_exploration", brand_mentioned_in_query := false
    brand_keywords := ["tesla"] }

/-! ## Helper lemmas: the analysis fold as a sum of contributions -/

theorem cm_add_def (a b : CategoryMetrics) : a + b = cmAdd a b := rfl

theorem cb_add_def (a b : CategoryBreakdown) : a + b = cbAdd a b := rfl

theorem initialBreakdown_add (x : CategoryBreakdown) : cbAdd initialBreakdown x = x :=
  zero_add x

theorem step_total_mentions (st : AnalysisFoldState) (r : AIResponse) :
    (analysisFoldStep st r).total_mentions = st.total_mentions + mContrib r := by
  rcases hr : r.analysis with _ | a <;>
    simp only [analysisFoldStep, hr, mContrib] <;>
    split_ifs <;>
    simp_all

theorem step_total_organic (st : AnalysisFoldState) (r : AIResponse) :
    (analysisFoldStep st r).total_organic_mentions =
      st.total_organic_mentions + oContrib r := by
  rcases hr : r.analysis with _ | a <;>
    simp only [analysisFoldStep, hr, oContrib] <;>
    split_ifs <;>
    simp_all

theorem step_scores (st : AnalysisFoldState) (r : AIResponse) :
    (analysisFoldStep st r).sentiment_scores =
      st.sentiment_scores ++ (sContrib r).toList := by
  rcases hr : r.analysis with _ | a <;>
    simp only [analysisFoldStep, hr, sContrib] <;>
    split_ifs <;>
    simp_all

theorem step_category (st : AnalysisFoldState) (r : AIResponse) :
    (analysisFoldStep st r).category_metrics =
      st.category_metrics + cbContrib r := by
  by_cases hp : r.platform = "chatgpt" ∨ r.platform = "gemini"
  case neg =>
    rcases hr : r.analysis with _ | a <;>
      simp [analysisFoldStep, hr, cbContrib, hp, cb_add_def, cbAdd,
        initialBreakdown, cm_add_def, cmAdd, zeroCategoryMetrics]
  case pos =>
    rcases hr : r.analysis with _ | a
    · rcases hp with hp1 | hp1 <;>
        simp [analysisFoldStep, hr, cbContrib, hp1, cb_add_def, cbAdd,
          initialBreakdown, cm_add_def, cmAdd, zeroCategoryMetrics]
    · by_cases hc : a.query_category ∈ categoryNames
      · have hc' : a.query_category = "category_exploration" ∨
            a.query_category = "comparison_research" ∨
            a.query_category = "problem_solving" ∨
            a.query_category = "direct_brand" := by
          simpa [categoryNames] using hc
        rcases hp with hp1 | hp1 <;> rcases hc' with h4 | h4 | h4 | h4 <;>
          by_cases hm : 0 < a.mentions_found <;>
            by_cases ho : a.organic_mention = true <;>
              simp_all [analysisFoldStep, hr, cbContrib, hp1, h4, categoryNames,
                updateCategory, cbDelta, cb_add_def, cbAdd, cm_add_def, cmAdd,
                initialBreakdown, zeroCategoryMetrics] <;>
              split_ifs <;>
                simp_all
      · rcases hp with hp1 | hp1 <;>
          simp_all [analysisFoldStep, hr, cbContrib, hp1, cb_add_def, cbAdd,
            initialBreakdown, cm_add_def, cmAdd, zeroCategoryMetrics] <;>
          split_ifs <;>
            simp_all

theorem foldl_total_mentions (rs : List AIResponse) :
    ∀ st : AnalysisFoldState,
      (rs.foldl analysisFoldStep st).total_mentions =
        st.total_mentions + (rs.map mContrib).sum := by
  induction rs with
  | nil => intro st; simp
  | cons r rs ih =>
    intro st
    simp [List.foldl_cons, ih, step_total_mentions, Nat.add_assoc]

theorem foldl_total_organic (rs : List AIResponse) :
    ∀ st : AnalysisFoldState,
      (rs.foldl analysisFoldStep st).total_organic_mentions =
        st.total_organic_mentions + (rs.map oContrib).sum := by
  induction rs with
  | nil => intro st; simp
  | cons r rs ih =>
    intro st
    simp [List.foldl_cons, ih, step_total_organic, Nat.add_assoc]

theorem foldl_scores (rs : List AIResponse) :
    ∀ st : AnalysisFoldState,
      (rs.foldl analysisFoldStep st).sentiment_scores =
        st.sentiment_scores ++ rs.filterMap sContrib := by
  induction rs with
  | nil => intro st; simp
  | cons r rs ih =>
    intro st
    rcases hs : sContrib r with _ | x <;>
      simp [List.foldl_cons, ih, step_scores, hs]

theorem foldl_category (rs : List AIResponse) :
    ∀ st : AnalysisFoldState,
      (rs.foldl analysisFoldStep st).category_metrics =
        st.category_metrics + (rs.map cbContrib).sum := by
  induction rs with
  | nil => intro st; simp
  | cons r rs ih =>
    intro st
    simp [List.foldl_cons, ih, step_category, add_assoc]

theorem initialBreakdown_eq_zero : initialBreakdown = 0 := rfl

/-- Rewriting `ResponseAnalysisNode.post` in closed form: every summary component
is a sum (or average) of per-response contributions. -/
theorem post_eq (rs : List AIResponse) :
    responseAnalysisPost rs =
      { total_mentions := (rs.map mContrib).sum
        total_organic_mentions := (rs.map oContrib).sum
        organic_mention_rate :=
          if 0 < rs.length then ((rs.map oContrib).sum : ℚ) / (rs.length : ℚ)
          else 0
        total_responses := rs.length
        avg_sentiment :=
          if (rs.filterMap sContrib).isEmpty then 0
          else (rs.filterMap sContrib).sum / ((rs.filterMap sContrib).length : ℚ)
        category_breakdown := (rs.map cbContrib).sum } := by
  simp only [responseAnalysisPost, foldl_total_mentions, foldl_total_organic,
    foldl_scores, foldl_category, initialAnalysisFoldState]
  simp [initialBreakdown_eq_zero]

/-! ## Claim C1: `total_responses` versus the number of successes -/

/-- C1, counterexample: for the one-element batch containing a single
failed response, `ResponseAnalysisNode.post` reports `total_responses = 1`
although no response has `status == "success"` — refuting the claim that
`total_responses` counts the successfully analyzed responses. -/
theorem claim1_counterexample :
    ¬ ((responseAnalysisPost [errResponse]).total_responses =
        successCount [errResponse]) := by
  decide

/-- C1, amended: `total_responses` is `len(exec_res_list)` — the raw
fan-out count of the batch handed to the analysis stage, regardless of
status. -/
theorem claim1_amended (rs : List AIResponse) :
    (responseAnalysisPost rs).total_responses = rs.length := rfl

/-! ## Claim C2: range of `organic_mention_rate` -/

/-- C2, counterexample: a single successful, organically-mentioning
response whose text matched two configured keywords makes
`organic_mention_rate = 2`, outside `[0,1]` — the numerator counts
mentions while the denominator counts responses. -/
theorem claim2_counterexample :
    ¬ ((responseAnalysisPost [multiMentionResponse]).organic_mention_rate ≤ 1) := by
  have h : ([multiMentionResponse].map oContrib).sum = 2 := by decide
  rw [post_eq]
  simp only [h, List.length_cons, List.length_nil]
  norm_num

/-- Reachability of the counterexample record: running the analysis
stage's `exec` on the corresponding raw response (text `"acme roof"`,
keywords `["acme", "roof"]`, an organic category-exploration query) does
produce an analysis with `mentions_found = 2` and `organic_mention`. -/
theorem multiMentionResponse_reachable :
    ((responseAnalysisExec
        { platform := "chatgpt", query := "best roofing companies?"
          response := "acme roof", status := "success"
          category := "category_exploration", brand_mentioned_in_query := false
          brand_keywords := ["acme", "roof"] }).analysis.map
      (fun a => (a.mentions_found, a.mentions, a.organic_mention,
        a.brand_mentioned_in_query, a.query_category))) =
      some (2,
        [{ keyword := "acme", context := "acme roof", position := 0 },
         { keyword := "roof", context := "acme roof", position := 0 }],
        true, false, "category_exploration") := by
  decide

/-- C2, amended: the rate is nonnegative and equals `0` when
`total_responses = 0` (no division by zero occurs), but it is not bounded
by `1`. -/
theorem claim2_amended (rs : List AIResponse) :
    0 ≤ (responseAnalysisPost rs).organic_mention_rate ∧
      ((responseAnalysisPost rs).total_responses = 0 →
        (responseAnalysisPost rs).organic_mention_rate = 0) := by
  rw [post_eq]
  constructor
  · dsimp only
    split_ifs
    · exact div_nonneg (Nat.cast_nonneg _) (Nat.cast_nonneg _)
    · exact le_refl 0
  · intro h0
    dsimp only at h0 ⊢
    rw [if_neg (by omega)]

/-- C2, witness for the amended claim at the empty batch. -/
theorem claim2_witness :
    0 ≤ (responseAnalysisPost []).organic_mention_rate ∧
      (responseAnalysisPost []).organic_mention_rate = 0 :=
  ⟨(claim2_amended []).1, (claim2_amended []).2 rfl⟩

/-! ## Claim C3: order independence of the analysis fold -/

/-- C3: permuting the batch result list does not change any component of
the analysis summary (`total_mentions`, `total_organic_mentions`,
`organic_mention_rate`, `total_responses`, `avg_sentiment`,
`category_breakdown`). -/
theorem claim3_fold_order_independent (rs rs' : List AIResponse)
    (h : rs.Perm rs') :
    responseAnalysisPost rs = responseAnalysisPost rs' := by
  have hsp : (rs.filterMap sContrib).Perm (rs'.filterMap sContrib) :=
    h.filterMap sContrib
  rw [post_eq, post_eq]
  simp only [RunAnalysis.mk.injEq]
  refine ⟨(h.map mContrib).sum_eq, (h.map oContrib).sum_eq, ?_, h.length_eq, ?_, ?_⟩
  · rw [(h.map oContrib).sum_eq, h.length_eq]
  · by_cases hn : rs.filterMap sContrib = []
    · have hn' : rs'.filterMap sContrib = [] := by
        have hx := hsp
        rw [hn] at hx
        exact hx.symm.eq_nil
      rw [hn, hn']
    · have hn' : rs'.filterMap sContrib ≠ [] := by
        intro hh
        rw [hh] at hsp
        exact hn hsp.eq_nil
      rw [hsp.sum_eq, hsp.length_eq]
      have he : (rs.filterMap sContrib).isEmpty = false := by
        simp [List.isEmpty_iff, hn]
      have he' : (rs'.filterMap sContrib).isEmpty = false := by
        simp [List.isEmpty_iff, hn']
      rw [he, he']
  · exact (h.map cbContrib).sum_eq

/-- C3, witness: swapping the two sample responses leaves the summary
unchanged. -/
theorem claim3_witness :
    responseAnalysisPost [errResponse, multiMentionResponse] =
      responseAnalysisPost [multiMentionResponse, errResponse] :=
  claim3_fold_order_independent _ _
    (List.Perm.swap multiMentionResponse errResponse [])

/-! ## Claim C4: organic mentions are exactly unprompted mentions -/

/-- C4: for every successful response, `ResponseAnalysisNode.exec`
attaches an analysis whose `organic_mention` is `true` exactly when
`mentions_found > 0` and the query did not name the brand; in particular
`organic_mention = true` implies both. -/
theorem claim4_organic_iff (rd : AIResponse) (h : rd.status = "success") :
    ∃ a : Analysis, (responseAnalysisExec rd).analysis = some a ∧
      (a.organic_mention = true ↔
        0 < a.mentions_found ∧ a.brand_mentioned_in_query = false) ∧
      a.brand_mentioned_in_query = rd.brand_mentioned_in_query := by
  unfold responseAnalysisExec
  rw [if_neg (by simp [h])]
  refine ⟨_, rfl, ?_, rfl⟩
  by_cases hm :
      0 < (analyze_brand_mentions rd.response rd.brand_keywords).mentions_found
  · cases hb : rd.brand_mentioned_in_query <;> simp [hm, hb]
  · simp [hm]

/-- C4, witness at a concrete successful response. -/
theorem claim4_witness :
    ∃ a : Analysis, (responseAnalysisExec rawSuccessResponse).analysis = some a ∧
      (a.organic_mention = true ↔
        0 < a.mentions_found ∧ a.brand_mentioned_in_query = false) ∧
      a.brand_mentioned_in_query = rawSuccessResponse.brand_mentioned_in_query :=
  claim4_organic_iff rawSuccessResponse rfl

/-! ## Claim C5: the sentiment score formula -/

/-- C5, counterexample: on a text with a positive-lexicon hit but no
keyword mention, `calculate_sentiment` short-circuits to `0`, while the
spec formula (hits normalized by `max(wordCount/10, 1)`, clamped) gives
`1` — so the score does not always equal the formula. -/
theorem claim5_counterexample :
    (analyze_brand_mentions "this is a great product" ["zzz"]).sentiment_score ≠
      specSentimentFormula "this is a great product" := by
  have h1 :
      (analyze_brand_mentions "this is a great product" ["zzz"]).sentiment_score
        = 0 := by decide
  have h2 : specSentimentFormula "this is a great product" = 1 := by
    simp only [specSentimentFormula]
    rw [show (positive_words.filter
          (fun w => listContainsSub w.toList
            (lowerChars "this is a great product"))).length = 1 from by decide,
        show (negative_words.filter
          (fun w => listContainsSub w.toList
            (lowerChars "this is a great product"))).length = 0 from by decide,
        show wordCount "this is a great product".toList = 5 from by decide]
    norm_num [max_def, min_def]
  rw [h1, h2]
  norm_num

/-- C5, amended: the score is `0` whenever the mention list is empty;
when some keyword was mentioned (and the text has words) the score equals
the spec formula, and the label always follows the spec thresholds
(`> 0.2` positive, `< -0.2` negative, else neutral). -/
theorem claim5_amended (text : String) (kws : List String) :
    ((analyze_brand_mentions text kws).mentions = [] →
        (analyze_brand_mentions text kws).sentiment_score = 0) ∧
      ((analyze_brand_mentions text kws).mentions ≠ [] →
        wordCount text.toList ≠ 0 →
        (analyze_brand_mentions text kws).sentiment_score =
          specSentimentFormula text) ∧
      (analyze_brand_mentions text kws).sentiment_label =
        specSentimentLabel (analyze_brand_mentions text kws).sentiment_score := by
  refine ⟨?_, ?_, ?_⟩
  · intro h
    simp only [analyze_brand_mentions] at h ⊢
    rw [calculate_sentiment, if_pos (by simp [h])]
  · intro h hw
    simp only [analyze_brand_mentions] at h ⊢
    rw [calculate_sentiment, if_neg (by simp [List.isEmpty_iff, h])]
    simp only [specSentimentFormula]
    rw [if_neg hw]
  · rfl

/-- C5, witness for the amended claim: a mentioned brand in a short
positive text gets the spec-formula score. -/
theorem claim5_witness :
    (analyze_brand_mentions "tesla is great" ["tesla"]).sentiment_score =
      specSentimentFormula "tesla is great" :=
  (claim5_amended "tesla is great" ["tesla"]).2.1 (by decide) (by decide)

/-! ## Claim C6: decision-stage routing and graph connectivity -/

/-- C6: the routing label of `OptimizationAgentNode.post` is
`needs_attention` exactly for status `poor` or `needs_improvement`,
`performing_well` exactly for `excellent`, and `default` otherwise; and
all three labels are wired from the decision stage to the report stage in
`create_brand_monitoring_flow`. -/
theorem claim6_routing (s : String) :
    ((optimizationAgentPost { assessment := some { status := some s } } =
        "needs_attention") ↔ (s = "poor" ∨ s = "needs_improvement")) ∧
      ((optimizationAgentPost { assessment := some { status := some s } } =
        "performing_well") ↔ s = "excellent") ∧
      ((optimizationAgentPost { assessment := some { status := some s } } =
        "default") ↔
        ¬(s = "poor" ∨ s = "needs_improvement" ∨ s = "excellent")) ∧
      brandFlowEdge "optimization_agent" "needs_attention" =
        some "report_generator" ∧
      brandFlowEdge "optimization_agent" "performing_well" =
        some "report_generator" ∧
      brandFlowEdge "optimization_agent" "default" = some "report_generator" := by
  refine ⟨?_, ?_, ?_, rfl, rfl, rfl⟩ <;>
    by_cases h1 : s = "poor" ∨ s = "needs_improvement" <;>
      by_cases h2 : s = "excellent" <;>
        simp_all [optimizationAgentPost]

/-- C6, witness at the status `"excellent"`. -/
theorem claim6_witness :
    optimizationAgentPost { assessment := some { status := some "excellent" } } =
        "performing_well" ∧
      brandFlowEdge "optimization_agent" "performing_well" =
        some "report_generator" :=
  ⟨(claim6_routing "excellent").2.1.mpr rfl, (claim6_routing "excellent").2.2.2.2.1⟩

/-! ## Claim C7: the deterministic assessment fallback -/

/-- C7: when the structured output fails to parse,
`OptimizationAgentNode.exec` returns the fallback whose status is
`needs_improvement` exactly when `total_organic_mentions < 3` (else
`good`), with exactly one recommendation, of priority `high`; the run
continues (the fallback is returned, nothing is raised). -/
theorem claim7_fallback (name : String) (tm tom : Nat) (rate : ℚ) :
    ∃ a : AssessmentRec,
      (optimizationAgentExec none name tm tom rate).assessment = some a ∧
        (a.status = some "needs_improvement" ↔ tom < 3) ∧
        (a.status = some "good" ↔ ¬tom < 3) ∧
        ((optimizationAgentExec none name tm tom rate).recommendations.map
          (fun i => i.priority)) = ["high"] := by
  refine ⟨_, rfl, ?_, ?_, rfl⟩ <;>
    by_cases h : tom < 3 <;>
      simp [optimizationAgentExec, optimizationFallback, h]

/-- C7, witness with no organic mentions: the fallback reports
`needs_improvement`. -/
theorem claim7_witness :
    ∃ a : AssessmentRec,
      (optimizationAgentExec none "acme" 0 0 0).assessment = some a ∧
        (a.status = some "needs_improvement" ↔ (0 : Nat) < 3) ∧
        (a.status = some "good" ↔ ¬(0 : Nat) < 3) ∧
        ((optimizationAgentExec none "acme" 0 0 0).recommendations.map
          (fun i => i.priority)) = ["high"] :=
  claim7_fallback "acme" 0 0 0

/-! ## Helper lemmas for the platform wrappers -/

theorem simulated_ne_empty (r : String) : ("[Simulated] " ++ r) ≠ "" := by
  intro h
  have hd : ("[Simulated] " ++ r).data = "".data := congrArg String.data h
  simp [String.data_append] at hd

theorem query_chatgpt_status (llm : String → Except String String) (q : String) :
    (query_chatgpt llm q).status = "success" ∨
      (query_chatgpt llm q).status = "error" := by
  unfold query_chatgpt
  rcases llm ("Please answer this question as you would for any user: " ++ q) with e | t <;>
    simp

theorem query_gemini_status (gem llm : String → Except String String) (q : String) :
    (query_gemini gem llm q).status = "success" ∨
      (query_gemini gem llm q).status = "fallback" ∨
      (query_gemini gem llm q).status = "error" := by
  unfold query_gemini
  rcases gem q with eg | tg
  · rcases llm ("[Simulating Gemini response] " ++ q) with ef | tf <;> simp
  · simp

/-! ## Claim C8: fan-out cardinality -/

/-- C8: for `N` prepared queries the fan-out stage produces exactly
`N × 2` provider-response records — one per (query, platform) pair in
order, with a well-formed status — independently of how the oracles
behave on each item. -/
theorem claim8_fanout (qs : List QueryItem)
    (gem llm : String → Except String String) :
    ((multiPlatformPrep qs).map (multiPlatformExec gem llm)).length =
        qs.length * 2 ∧
      (((multiPlatformPrep qs).map (multiPlatformExec gem llm)).map
          (fun r => (r.query, r.platform))) =
        qs.flatMap (fun q => [(q.query, "chatgpt"), (q.query, "gemini")]) ∧
      ∀ r ∈ (multiPlatformPrep qs).map (multiPlatformExec gem llm),
        r.status = "success" ∨ r.status = "fallback" ∨ r.status = "error" := by
  refine ⟨?_, ?_, ?_⟩
  · simp only [List.length_map]
    induction qs with
    | nil => rfl
    | cons q qs ih =>
      rw [multiPlatformPrep, List.flatMap_cons, List.length_append]
      rw [multiPlatformPrep] at ih
      rw [ih]
      simp [platforms, List.length_cons]
      omega
  · induction qs with
    | nil => rfl
    | cons q qs ih =>
      simp only [multiPlatformPrep, List.flatMap_cons, List.map_append] at ih ⊢
      rw [ih]
      simp [platforms, multiPlatformExec, query_chatgpt, query_gemini]
      constructor
      · rcases llm ("Please answer this question as you would for any user: " ++ q.query) with e | t <;>
          simp
      · rcases gem q.query with eg | tg
        · rcases llm ("[Simulating Gemini response] " ++ q.query) with ef | tf <;> simp
        · simp
  · intro r hr
    rw [List.mem_map] at hr
    obtain ⟨p, hp, hrp⟩ := hr
    subst hrp
    unfold multiPlatformExec
    split_ifs with h1 h2
    · dsimp only
      rcases query_chatgpt_status llm p.query with h | h <;> simp [h]
    · dsimp only
      rcases query_gemini_status gem llm p.query with h | h | h <;> simp [h]
    · simp

/-- C8, witness at a two-query batch: four records. -/
theorem claim8_witness :
    ((multiPlatformPrep
        [{ query := "q1", category := "direct_brand", brand_mentioned := true },
         { query := "q2", category := "problem_solving", brand_mentioned := false }]).map
      (multiPlatformExec (fun _ => Except.error "down") (fun _ => Except.ok "hi"))).length =
      2 * 2 :=
  (claim8_fanout
    [{ query := "q1", category := "direct_brand", brand_mentioned := true },
     { query := "q2", category := "problem_solving", brand_mentioned := false }]
    (fun _ => Except.error "down") (fun _ => Except.ok "hi")).1

/-! ## Claim C9: keyword list construction -/

theorem addKeyword_preserves (name k : String) (acc : List String)
    (h : KeywordListOK name acc) : KeywordListOK name (addKeyword name acc k) := by
  obtain ⟨rest, hacc, hnd, hlow⟩ := h
  unfold addKeyword
  split_ifs with hcond
  · obtain ⟨hklow, hknotin⟩ := hcond
    refine ⟨rest ++ [k], by simp [hacc], ?_, ?_⟩
    · rw [List.nodup_append]
      refine ⟨hnd, List.nodup_singleton k, ?_⟩
      intro x hx hxk
      rw [List.mem_singleton] at hxk
      subst hxk
      exact hknotin hx
    · intro x hx
      rcases List.mem_append.mp hx with hx | hx
      · exact hlow x hx
      · rw [List.mem_singleton] at hx
        subst hx
        exact hklow
  · exact ⟨rest, hacc, hnd, hlow⟩

theorem foldl_addKeyword_ok (name : String) (ks : List String) :
    ∀ acc, KeywordListOK name acc →
      KeywordListOK name (ks.foldl (addKeyword name) acc) := by
  induction ks with
  | nil => intro acc h; exact h
  | cons k ks ih =>
    intro acc h
    exact ih _ (addKeyword_preserves name k acc h)

theorem getBrandConfigKeywordsAux_ok (name : String) (entries : List String) :
    ∀ acc, KeywordListOK name acc →
      KeywordListOK name (getBrandConfigKeywordsAux name acc entries) := by
  induction entries with
  | nil => intro acc h; exact h
  | cons e es ih =>
    intro acc h
    unfold getBrandConfigKeywordsAux
    split_ifs
    · exact h
    · exact ih _ (addKeyword_preserves name (stripStr e) acc h)

theorem baseKeywordListOK (name : String) : KeywordListOK name [name] :=
  ⟨[], rfl, List.nodup_singleton name, by simp⟩

/-- C9, counterexample: two caller keywords differing only in case both
survive (`keyword not in keyword_list` is case-sensitive), refuting the
case-insensitive deduplication. -/
theorem claim9_counterexample :
    analyzeKeywordList "Acme" "roofing\nRoofing" =
        ["Acme", "roofing", "Roofing"] ∧
      lowerChars "roofing" = lowerChars "Roofing" ∧ "roofing" ≠ "Roofing" := by
  refine ⟨by decide, by decide, by decide⟩

/-- C9, amended: both entry points put the brand name first and avoid
exact duplicates and case-variants of the brand name, but caller-supplied
duplicates that differ only in case are kept. -/
theorem claim9_amended (name text : String) (entries : List String) :
    KeywordListOK name (analyzeKeywordList name text) ∧
      KeywordListOK name (getBrandConfigKeywords name entries) := by
  constructor
  · unfold analyzeKeywordList
    split_ifs
    · exact baseKeywordListOK name
    · exact foldl_addKeyword_ok name _ _ (baseKeywordListOK name)
  · exact getBrandConfigKeywordsAux_ok name entries _ (baseKeywordListOK name)

/-- C9, witness at a concrete brand and keyword input. -/
theorem claim9_witness :
    KeywordListOK "Acme" (analyzeKeywordList "Acme" "roofing") ∧
      KeywordListOK "Acme" (getBrandConfigKeywords "Acme" ["roofing"]) :=
  claim9_amended "Acme" "roofing" ["roofing"]

/-! ## Claim C10: totality and shape of the platform wrappers -/

/-- C10: both wrappers always return a record (they are total functions
of the oracle outcomes — every Python exception path is caught), with
status among `success`/`fallback`/`error`; an `error` record has an empty
response and a present error message; and when the Gemini primary fails
but the `call_llm` fallback succeeds, the result is a `fallback` record
with a non-empty simulated response. -/
theorem claim10_platform_totality (gem llm : String → Except String String)
    (q : String) :
    ((query_chatgpt llm q).status = "success" ∨
        (query_chatgpt llm q).status = "fallback" ∨
        (query_chatgpt llm q).status = "error") ∧
      ((query_chatgpt llm q).status = "error" →
        (query_chatgpt llm q).response = "" ∧ (query_chatgpt llm q).error.isSome) ∧
      ((query_gemini gem llm q).status = "success" ∨
        (query_gemini gem llm q).status = "fallback" ∨
        (query_gemini gem llm q).status = "error") ∧
      ((query_gemini gem llm q).status = "error" →
        (query_gemini gem llm q).response = "" ∧ (query_gemini gem llm q).error.isSome) ∧
      (∀ e r, gem q = Except.error e →
        llm ("[Simulating Gemini response] " ++ q) = Except.ok r →
        (query_gemini gem llm q).status = "fallback" ∧
          (query_gemini gem llm q).response ≠ "") := by
  refine ⟨?_, ?_, ?_, ?_, ?_⟩
  · rcases query_chatgpt_status llm q with h | h <;> simp [h]
  · unfold query_chatgpt
    rcases llm ("Please answer this question as you would for any user: " ++ q) with e | t <;>
      simp
  · exact query_gemini_status gem llm q
  · unfold query_gemini
    rcases gem q with eg | tg
    · rcases llm ("[Simulating Gemini response] " ++ q) with ef | tf <;> simp
    · simp
  · intro e r he hr
    unfold query_gemini
    rw [he, hr]
    exact ⟨rfl, simulated_ne_empty r⟩

/-- C10, witness: a failing Gemini oracle with a succeeding `call_llm`
yields a non-empty fallback record. -/
theorem claim10_witness :
    (query_gemini (fun _ => Except.error "down") (fun _ => Except.ok "hello")
        "hi").status = "fallback" ∧
      (query_gemini (fun _ => Except.error "down") (fun _ => Except.ok "hello")
        "hi").response ≠ "" :=
  (claim10_platform_totality (fun _ => Except.error "down")
    (fun _ => Except.ok "hello") "hi").2.2.2.2 "down" "hello" rfl rfl

end AIOptimizer
